import Mathlib

/-!
# Cassiopeia synchronization core — shallow embedding and verification

This file embeds the scheduled-synchronization core of the Cassiopeia server
(Go) in Lean 4 and settles the specification claims about it.

Modelling conventions, used uniformly below:

* Go `float64` values are modelled as real numbers (`ℝ`); Go `time.Time`
  values as integer Unix seconds (`Int`) where only ordering/arithmetic on
  whole timestamps matters, and as `ℝ` where the code takes fractional
  second differences.
* A Go function returning `(T, error)` is modelled as `Except String T`;
  an error message mirrors the `fmt.Errorf` format string of the source
  (the wrapped cause is appended after ": ").
* External collaborators (the Redis cache, the Postgres/gorm store, the
  HTTP source clients) are modelled at their call boundary: the outcome a
  collaborator call would produce in the scenario under consideration is
  passed in as an explicit argument, and the embedding of a service
  function reproduces exactly the Go control flow around those outcomes.
* Each service function additionally reports how many Source Client
  (upstream HTTP) calls it performed, as an explicit natural-number field
  or pair component, so that "no upstream fetch happens" claims are
  expressible as theorems rather than meta-observations.
-/

/-! ## JSON values at the decode boundary

`map[string]interface{}` documents decoded by `encoding/json` are modelled
as association lists from key to `JVal`.  A JSON number decodes to a Go
`float64` (constructor `num`).  A string value is carried together with
what the two Go library parsers used by this repository yield on it:
`fmt.Sscanf(s, "%f", ...)` (field `floatVal`) and
`time.Parse(time.RFC3339, s)` (field `timeVal`, Unix seconds); `none`
means the parse fails.  Booleans, nulls and nested composites are never
inspected by the extraction helpers below beyond "not a string / not a
number", so they collapse into `other`. -/
inductive JVal where
  | num (x : ℝ)
  | str (s : String) (floatVal : Option ℝ) (timeVal : Option Int)
  | other
deriving Inhabited

/-- A decoded JSON document (`map[string]interface{}`), as an association
list preserving the lookup semantics of the Go map. -/
abbrev RawDoc := List (String × JVal)

/-! ## Cache-Aside Store call outcomes

`cacheRepository.Get` returns `("", nil)` when the key is missing (a miss
is explicitly not an error, see `cache_repository.go`), the raw string on
a hit, and a non-nil error when the store fails.  `GetJSON` likewise
returns a nil error on a missing key *without touching the destination*,
unmarshals into the destination on a hit, and returns a non-nil error on
a store or unmarshal failure. -/
inductive CacheGet where
  | miss
  | hit (s : String)
  | failure
deriving DecidableEq

/-- Outcome of `cacheRepository.GetJSON` for a destination of type `α`:
`miss` = key absent, nil error, destination left at its zero value;
`hit v` = key present, destination set to `v`, nil error;
`failure` = store or unmarshal error (non-nil error). -/
inductive CacheJSON (α : Type) where
  | miss
  | hit (v : α)
  | failure

namespace IssService

/-- `models.ISSLog`: one persisted positional sample.  `payload` is the
stored JSON document, already decoded (`none` models a payload that
`json.Unmarshal` rejects); `fetchedAt` is in seconds (fractions allowed,
since the trend code takes `.Sub(...).Seconds()`). -/
structure ISSLog where
  id : Nat
  fetchedAt : ℝ
  sourceURL : String
  payload : Option RawDoc

/-- `models.ISSTrend`. -/
structure ISSTrend where
  movement : Bool
  deltaKm : ℝ
  dtSec : ℝ
  velocityKmh : Option ℝ
  fromTime : Option ℝ
  toTime : Option ℝ
  fromLat : Option ℝ
  fromLon : Option ℝ
  toLat : Option ℝ
  toLon : Option ℝ

/-- The zero value of `models.ISSTrend` (all fields at their Go zero
values).  This is both what `calculateTrend` returns on an unmarshal
error and what `GetTrend` returns in its `len(positions) < 2` branch
(`&models.ISSTrend{Movement: false, DeltaKm: 0, DtSec: 0, VelocityKmh:
nil}` — remaining fields zero), and also the state of the stack variable
`trend` before `GetJSON` runs. -/
def trendZero : ISSTrend :=
  { movement := false, deltaKm := 0, dtSec := 0, velocityKmh := none
    fromTime := none, toTime := none, fromLat := none, fromLon := none
    toLat := none, toLon := none }

/-- `extractFloat` (iss service): single-key numeric extraction from a
decoded document.  A `float64` value is returned as is; a string value is
scanned with `fmt.Sscanf "%f"` and used only when the scan succeeds;
anything else (or an absent key) yields `0`. -/
noncomputable def extractFloat (data : RawDoc) (key : String) : ℝ :=
  match data.lookup key with
  | some (JVal.num v) => v
  | some (JVal.str _ floatVal _) =>
    match floatVal with
    | some f => f
    | none => 0
  | _ => 0

/-- `math.Atan2 y x`, modelled as the argument of the complex number
`x + y·i` (the standard two-argument arctangent; `Complex.arg` matches
Go's conventions on all real inputs our model produces, including
`atan2 0 0 = 0`). -/
noncomputable def atan2 (y x : ℝ) : ℝ := Complex.arg (x + y * Complex.I)

/-- `haversineDistance`: great-circle distance in km between two
latitude/longitude pairs (degrees), Earth radius 6371 km. -/
noncomputable def haversineDistance (lat1 lon1 lat2 lon2 : ℝ) : ℝ :=
  let R : ℝ := 6371
  let fi1 := lat1 * Real.pi / 180
  let fi2 := lat2 * Real.pi / 180
  let deltaFi := (lat2 - lat1) * Real.pi / 180
  let deltaXi := (lon2 - lon1) * Real.pi / 180
  let a := Real.sin (deltaFi / 2) * Real.sin (deltaFi / 2) +
    Real.cos fi1 * Real.cos fi2 * Real.sin (deltaXi / 2) * Real.sin (deltaXi / 2)
  let c := 2 * atan2 (Real.sqrt a) (Real.sqrt (1 - a))
  R * c

/-- `calculateTrend current previous`: unmarshal both payloads (returning
the zero trend on either failure, as the Go does), extract coordinates
and velocity, and assemble the trend: haversine displacement, elapsed
seconds, `movement = deltaKm > 0.1`, and the m/s → km/h conversion of a
positive velocity. -/
noncomputable def calculateTrend (current previous : ISSLog) : ISSTrend :=
  match current.payload, previous.payload with
  | some currentData, some previousData =>
    let lat1 := extractFloat previousData "latitude"
    let lon1 := extractFloat previousData "longitude"
    let lat2 := extractFloat currentData "latitude"
    let lon2 := extractFloat currentData "longitude"
    let velocity := extractFloat currentData "velocity"
    let deltaKm := haversineDistance lat1 lon1 lat2 lon2
    let dtSec := current.fetchedAt - previous.fetchedAt
    let movement : Bool := if deltaKm > 0.1 then true else false
    let velocityKmh : Option ℝ := if velocity > 0 then some (velocity * 3.6) else none
    { movement := movement, deltaKm := deltaKm, dtSec := dtSec
      velocityKmh := velocityKmh
      fromTime := some previous.fetchedAt, toTime := some current.fetchedAt
      fromLat := some lat1, fromLon := some lon1
      toLat := some lat2, toLon := some lon2 }
  | _, _ => trendZero

/-- `GetTrend`: the trend read path.  `cached` is the `GetJSON` outcome
for the key `iss:trend:<limit>`, `positions` the `repo.GetLastN(ctx, 2)`
outcome (most recent first).  Faithful to the source: when `GetJSON`
returns a nil error — which it also does on a cache *miss*, leaving the
stack variable `trend` at its zero value — the function returns
immediately, so the repository branch only runs when the cache call
fails. -/
noncomputable def GetTrend (cached : CacheJSON ISSTrend)
    (positions : Except String (List ISSLog)) (limit : Int) :
    Except String ISSTrend × Nat :=
  let _normalizedLimit : Int := if limit ≤ 0 then 240 else limit
  match cached with
  | CacheJSON.miss => (Except.ok trendZero, 0)
  | CacheJSON.hit t => (Except.ok t, 0)
  | CacheJSON.failure =>
    match positions with
    | Except.error e => (Except.error ("failed to get ISS positions: " ++ e), 0)
    | Except.ok ps =>
      if h : ps.length < 2 then
        (Except.ok { movement := false, deltaKm := 0, dtSec := 0, velocityKmh := none
                     fromTime := none, toTime := none, fromLat := none, fromLon := none
                     toLat := none, toLon := none }, 0)
      else
        (Except.ok (calculateTrend (ps.get ⟨0, by omega⟩) (ps.get ⟨1, by omega⟩)), 0)

end IssService

/-- Observable outcome of one synchronization invocation
(`FetchAndStore…`): the returned `error`, the number of Source Client
calls performed, whether data was written to the Durable Repository, and
whether the fetch-lock key ended up set in the cache. -/
structure SyncOutcome where
  result : Except String Unit
  fetchCalls : Nat
  persisted : Bool
  lockSet : Bool

namespace IssService

/-- `FetchAndStoreISSData`: one ISS synchronization invocation.
`lockGet` is the `cacheRepo.Get` outcome for `iss:last_fetch`; `fetched`
the `client.GetCurrentPosition` outcome; `created` the `repo.Create`
outcome; `setPosOk`/`setLockOk` whether the two `cacheRepo.Set` calls
succeed (their failures are only logged).  The lock guard is
`err == nil && cached != ""`; `json.Marshal` of a decoded map cannot fail
and is elided. -/
def FetchAndStoreISSData (lockGet : CacheGet) (fetched : Except String RawDoc)
    (created : Except String Unit) (setPosOk setLockOk : Bool) : SyncOutcome :=
  let locked : Bool := match lockGet with
    | CacheGet.hit s => s ≠ ""
    | _ => false
  if locked then
    { result := Except.ok (), fetchCalls := 0, persisted := false, lockSet := false }
  else
    match fetched with
    | Except.error e =>
      { result := Except.error ("failed to fetch ISS data: " ++ e)
        fetchCalls := 1, persisted := false, lockSet := false }
    | Except.ok _ =>
      match created with
      | Except.error e =>
        { result := Except.error ("failed to save ISS data to DB: " ++ e)
          fetchCalls := 1, persisted := false, lockSet := false }
      | Except.ok _ =>
        let _posCached := setPosOk
        { result := Except.ok (), fetchCalls := 1, persisted := true, lockSet := setLockOk }

end IssService

namespace IssHandler

/-- `ForceFetchISS` (the `force-sync` HTTP endpoint): synchronously
invokes `FetchAndStoreISSData` and maps an error to HTTP 500 with the
wrapped message, success to HTTP 200.  Returns the status code paired
with the synchronization outcome. -/
def ForceFetchISS (lockGet : CacheGet) (fetched : Except String RawDoc)
    (created : Except String Unit) (setPosOk setLockOk : Bool) : Nat × SyncOutcome :=
  let o := IssService.FetchAndStoreISSData lockGet fetched created setPosOk setLockOk
  match o.result with
  | Except.error _ => (500, o)
  | Except.ok _ => (200, o)

end IssHandler

namespace NasaService

/-- `extractString` (nasa service): first candidate key whose value is a
non-empty string; otherwise the empty string. -/
def extractString (data : RawDoc) : List String → String
  | [] => ""
  | key :: keys =>
    match data.lookup key with
    | some (JVal.str s _ _) => if s ≠ "" then s else extractString data keys
    | _ => extractString data keys

/-- `extractTime` (nasa service): first of the candidate time keys whose
value either is a string parsing as RFC3339 (yielding its Unix time) or
is a number (taken as Unix seconds, `time.Unix(int64(v), 0)`; the
`int64` truncation is toward zero). -/
noncomputable def extractTime (data : RawDoc) : Option Int :=
  extractTimeKeys data ["updated_at", "modified", "lastUpdated", "timestamp"]
where
  /-- Walk the candidate keys in priority order. -/
  extractTimeKeys (data : RawDoc) : List String → Option Int
    | [] => none
    | key :: keys =>
      match data.lookup key with
      | some (JVal.str _ _ timeVal) =>
        match timeVal with
        | some t => some t
        | none => extractTimeKeys data keys
      | some (JVal.num v) => some (if 0 ≤ v then ⌊v⌋ else ⌈v⌉)
      | _ => extractTimeKeys data keys

/-- `FetchAndStoreOSDR`: the OSDR synchronization invocation.  The lock
guard ignores the `Get` error entirely (`if cached, _ := …; cached != ""`).
One `models.OSDRItem` is appended per fetched document, so the
`len(dbItems) > 0` guard is exactly non-emptiness of the fetched list;
`upserted` is the `repo.BulkUpsert` outcome (consulted only then).  The
final lock `Set` ignores its error (`setLockOk` is whether the key was
actually written). -/
def FetchAndStoreOSDR (lockGet : CacheGet) (fetched : Except String (List RawDoc))
    (upserted : Except String Unit) (setLockOk : Bool) : SyncOutcome :=
  let cached : String := match lockGet with
    | CacheGet.hit s => s
    | _ => ""
  if cached ≠ "" then
    { result := Except.ok (), fetchCalls := 0, persisted := false, lockSet := false }
  else
    match fetched with
    | Except.error e =>
      { result := Except.error ("failed to fetch OSDR data: " ++ e)
        fetchCalls := 1, persisted := false, lockSet := false }
    | Except.ok items =>
      if items.length > 0 then
        match upserted with
        | Except.error e =>
          { result := Except.error ("failed to save OSDR data: " ++ e)
            fetchCalls := 1, persisted := false, lockSet := false }
        | Except.ok _ =>
          { result := Except.ok (), fetchCalls := 1, persisted := true, lockSet := setLockOk }
      else
        { result := Except.ok (), fetchCalls := 1, persisted := false, lockSet := setLockOk }

/-- `FetchAndStoreAPOD`: fetches APOD unconditionally (no fetch-lock
check anywhere in the function) and caches it for 24 h; a cache-write
failure is logged *and returned*.  Nothing is written to the Durable
Repository. -/
def FetchAndStoreAPOD (fetched : Except String RawDoc) (setJSONOk : Bool) : SyncOutcome :=
  match fetched with
  | Except.error e =>
    { result := Except.error ("failed to fetch APOD: " ++ e)
      fetchCalls := 1, persisted := false, lockSet := false }
  | Except.ok _ =>
    if setJSONOk then
      { result := Except.ok (), fetchCalls := 1, persisted := false, lockSet := false }
    else
      { result := Except.error "failed to cache APOD"
        fetchCalls := 1, persisted := false, lockSet := false }

/-- `FetchAndStoreNEO`: identical shape to `FetchAndStoreAPOD` (fetch the
7-day NEO feed unconditionally, cache for 2 h, no lock, no durable
write). -/
def FetchAndStoreNEO (fetched : Except String RawDoc) (setJSONOk : Bool) : SyncOutcome :=
  match fetched with
  | Except.error e =>
    { result := Except.error ("failed to fetch NEO data: " ++ e)
      fetchCalls := 1, persisted := false, lockSet := false }
  | Except.ok _ =>
    if setJSONOk then
      { result := Except.ok (), fetchCalls := 1, persisted := false, lockSet := false }
    else
      { result := Except.error "failed to cache NEO data"
        fetchCalls := 1, persisted := false, lockSet := false }

/-- `GetLatestAPOD`: the APOD read path.  `cached` is the first `GetJSON`
outcome for `nasa:apod:today` (`hit` = the key held a JSON object, so the
destination map is non-nil); on anything else (`err == nil` with a nil
map, i.e. a miss, or a store failure) the function *fetches from the
Source Client* via `FetchAndStoreAPOD` and re-reads the key (`reGet`).
Result: the document (`none` models the nil map a second miss leaves)
paired with the upstream call count. -/
def GetLatestAPOD (cached : CacheJSON RawDoc) (fetched : Except String RawDoc)
    (setJSONOk : Bool) (reGet : CacheJSON RawDoc) :
    Except String (Option RawDoc) × Nat :=
  match cached with
  | CacheJSON.hit v => (Except.ok (some v), 0)
  | _ =>
    let o := FetchAndStoreAPOD fetched setJSONOk
    match o.result with
    | Except.error e => (Except.error e, o.fetchCalls)
    | Except.ok _ =>
      match reGet with
      | CacheJSON.hit v => (Except.ok (some v), o.fetchCalls)
      | CacheJSON.miss => (Except.ok none, o.fetchCalls)
      | CacheJSON.failure => (Except.error "failed to get APOD data", o.fetchCalls)

/-- `GetLatestNEO`: the NEO read path; same shape as `GetLatestAPOD`
(days-window normalization, then fetch-on-miss through
`FetchAndStoreNEO` and a re-read). -/
def GetLatestNEO (days : Int) (cached : CacheJSON RawDoc)
    (fetched : Except String RawDoc) (setJSONOk : Bool) (reGet : CacheJSON RawDoc) :
    Except String (Option RawDoc) × Nat :=
  let _days : Int := if days < 1 ∨ days > 30 then 7 else days
  match cached with
  | CacheJSON.hit v => (Except.ok (some v), 0)
  | _ =>
    let o := FetchAndStoreNEO fetched setJSONOk
    match o.result with
    | Except.error e => (Except.error e, o.fetchCalls)
    | Except.ok _ =>
      match reGet with
      | CacheJSON.hit v => (Except.ok (some v), o.fetchCalls)
      | CacheJSON.miss => (Except.ok none, o.fetchCalls)
      | CacheJSON.failure => (Except.error "failed to get NEO data", o.fetchCalls)

/-- `GetDONKI`: the DONKI read path.  On a cached non-nil event list,
return it with no upstream call; otherwise call `client.FetchDONKI`
directly (one upstream call), propagate its error, and cache the result
for 1 h ignoring the cache-write error. -/
def GetDONKI (eventType : String) (days : Int) (cached : CacheJSON (List RawDoc))
    (fetched : Except String (List RawDoc)) (setJSONOk : Bool) :
    Except String (List RawDoc) × Nat :=
  let _days : Int := if days < 1 ∨ days > 30 then 5 else days
  let _key := "nasa:donki:" ++ eventType
  match cached with
  | CacheJSON.hit events => (Except.ok events, 0)
  | _ =>
    match fetched with
    | Except.error e => (Except.error ("failed to fetch DONKI data: " ++ e), 1)
    | Except.ok events =>
      let _cacheWritten := setJSONOk
      (Except.ok events, 1)

end NasaService

namespace OsdrRepository

/-- `models.OSDRItem`.  `id` models the uuid primary key, `createdAt`
the gorm `autoCreateTime` stamp, times as Unix seconds.  The
convention-named `UpdatedAt *time.Time` field is a gorm auto-update-time
field: `Create` fills it with the current time when nil, and any update
(`Save`) overrides it with the current time regardless of the assigned
value.  (`InsertedAt`, a column with a database-side default that no
claim mentions, is omitted.) -/
structure OSDRItem where
  id : Nat
  datasetID : String
  title : String
  status : String
  updatedAt : Option Int
  raw : RawDoc
  createdAt : Int

/-- The in-memory image of the `osdr_items` table: rows in insertion
order, the uuid generator (`nextId` is the id the next insert receives),
and the clock that stamps `autoCreateTime`. -/
structure OSDRStore where
  rows : List OSDRItem
  nextId : Nat
  now : Int

/-- gorm's auto-update-time fill on `Create`: a nil `UpdatedAt` is set
to the current time; a provided (non-nil) value is kept. -/
def stampCreate (t : Option Int) (now : Int) : Option Int :=
  match t with
  | none => some now
  | some v => some v

/-- One iteration of the `BulkUpsert` transaction body: skip an item
whose `DatasetID` is empty; otherwise look the natural key up
(`tx.Where("dataset_id = ?").First`) — if absent, insert the item (the
store assigns `id` and `createdAt`, and fills a nil auto-update-time
`updatedAt` with the current time); if present, `Save` the incoming
item after copying the existing row's `ID` and `CreatedAt` onto it,
which overwrites every other (mutable) field of that row in place —
except `updatedAt`, which gorm overrides with the save time
(`NowFunc()`), discarding the incoming value. -/
def bulkUpsertStep (st : OSDRStore) (item : OSDRItem) : OSDRStore :=
  if item.datasetID = "" then st
  else
    match st.rows.find? (fun r => r.datasetID = item.datasetID) with
    | none =>
      let inserted := { item with id := st.nextId
                                  createdAt := st.now
                                  updatedAt := stampCreate item.updatedAt st.now }
      { rows := st.rows ++ [inserted], nextId := st.nextId + 1, now := st.now }
    | some existing =>
      let saved := { item with id := existing.id
                               createdAt := existing.createdAt
                               updatedAt := some st.now }
      { st with rows := st.rows.map (fun r => if r.id = existing.id then saved else r) }

/-- `BulkUpsert`: the whole batch inside one transaction.  The Go error
paths are all environmental store failures (`First`/`Create`/`Save`
returning a database error), which the in-memory image excludes; in
particular no *data* in the batch — empty natural keys included — makes
the transaction return an error. -/
def BulkUpsert (st : OSDRStore) (items : List OSDRItem) : Except String OSDRStore :=
  Except.ok (items.foldl bulkUpsertStep st)

end OsdrRepository

namespace WorkerScheduler

/-- The `Scheduler` (worker/scheduler.go): an ordered worker collection
and the `stopped` flag.  Workers are identified abstractly by `Nat`. -/
structure Scheduler where
  workers : List Nat
  stopped : Bool
deriving DecidableEq

/-- `NewScheduler`. -/
def NewScheduler : Scheduler := { workers := [], stopped := false }

/-- `AddWorker`: appends under the mutex.  Faithful to the source: there
is no check of `stopped` here. -/
def AddWorker (s : Scheduler) (w : Nat) : Scheduler :=
  { s with workers := s.workers ++ [w] }

/-- `Start`: if already stopped, return having launched nothing;
otherwise launch every registered worker concurrently (the returned list
is the workers whose `Start` goroutine was spawned). -/
def Start (s : Scheduler) : Scheduler × List Nat :=
  if s.stopped then (s, []) else (s, s.workers)

/-- `Stop`: set `stopped`, then signal `Stop` to every worker (the
returned list) and wait for the group up to the 10 s timeout. -/
def Stop (s : Scheduler) : Scheduler × List Nat :=
  ({ s with stopped := true }, s.workers)

/-- `IsRunning`. -/
def IsRunning (s : Scheduler) : Bool := !s.stopped

end WorkerScheduler

namespace NasaService

/-- `GetOSDRList`: the OSDR list read path.  A cache hit with a
non-empty list is returned directly; otherwise (miss — `GetJSON` leaves
the nil slice — or store failure) the page is read from the Durable
Repository and cached for 5 minutes with the write error only logged.
No Source Client call exists on this path. -/
def GetOSDRList (page limit : Int) (cached : CacheJSON (List OsdrRepository.OSDRItem))
    (repoRes : Except String (List OsdrRepository.OSDRItem)) (setJSONOk : Bool) :
    Except String (List OsdrRepository.OSDRItem) × Nat :=
  let _page : Int := if page < 1 then 1 else page
  let _limit : Int := if limit < 1 ∨ limit > 100 then 20 else limit
  let fromRepo : Except String (List OsdrRepository.OSDRItem) × Nat :=
    match repoRes with
    | Except.error e => (Except.error ("failed to get OSDR list: " ++ e), 0)
    | Except.ok items =>
      let _cacheWritten := setJSONOk
      (Except.ok items, 0)
  match cached with
  | CacheJSON.hit items => if items.length > 0 then (Except.ok items, 0) else fromRepo
  | _ => fromRepo

end NasaService

namespace IssService

/-- `GetLastPosition`: the ISS latest-position read path.  On a cache
hit with a non-empty string that unmarshals (`cachedDoc` is the
`json.Unmarshal` result on the hit string), an `ISSLog` is synthesized
around the cached payload with `FetchedAt = time.Now()`; otherwise the
last row is read from the Durable Repository and re-cached (write error
logged).  No Source Client call exists on this path. -/
def GetLastPosition (now : ℝ) (cached : CacheGet) (cachedDoc : Option RawDoc)
    (repoLast : Except String ISSLog) (setOk : Bool) : Except String ISSLog × Nat :=
  let fromRepo : Except String ISSLog × Nat :=
    match repoLast with
    | Except.error e => (Except.error ("failed to get last ISS position: " ++ e), 0)
    | Except.ok lg =>
      let _cacheWritten := setOk
      (Except.ok lg, 0)
  match cached with
  | CacheGet.hit s =>
    if s = "" then fromRepo
    else
      match cachedDoc with
      | some doc =>
        (Except.ok { id := 0, fetchedAt := now
                     sourceURL := "https://api.wheretheiss.at/v1/satellites/25544"
                     payload := some doc }, 0)
      | none => fromRepo
  | _ => fromRepo

/-- `GetPositionsHistory`: the ISS history read path; cache hit with a
non-empty list, else a repository range read (`GetSince`), cached when
non-empty with the write error logged.  No Source Client call exists on
this path. -/
def GetPositionsHistory (hours : Int) (cached : CacheJSON (List ISSLog))
    (repoRes : Except String (List ISSLog)) (setOk : Bool) :
    Except String (List ISSLog) × Nat :=
  let _hours : Int := if hours ≤ 0 then 24 else hours
  let fromRepo : Except String (List ISSLog) × Nat :=
    match repoRes with
    | Except.error e => (Except.error ("failed to get ISS history: " ++ e), 0)
    | Except.ok ps =>
      let _cacheWritten := setOk
      (Except.ok ps, 0)
  match cached with
  | CacheJSON.hit ps => if ps.length > 0 then (Except.ok ps, 0) else fromRepo
  | _ => fromRepo

end IssService

/-- The fetch-lock cache key as the *next* tick within the TTL window
observes it: both lock-setting services write the string `"1"` under
their `…:last_fetch` key with a TTL of the domain's refetch interval, so
while the window is open the key reads as `"1"` exactly when the write
happened (starting from no lock). -/
def lockGetAfter (o : SyncOutcome) : CacheGet :=
  if o.lockSet then CacheGet.hit "1" else CacheGet.miss

/-! ## Claims -/

/-- C1, counterexample: the claim "a cache miss … never triggers a call
to the Source Client: no upstream fetch is ever performed while serving
a read" is false for `GetLatestAPOD` — at a concrete cache miss it
performs an upstream `FetchAPOD` call (call count 1, not 0). -/
theorem c1_read_miss_triggers_upstream_fetch :
    (NasaService.GetLatestAPOD CacheJSON.miss (Except.ok []) true (CacheJSON.hit [])).2 ≠ 0 := by
  simp [NasaService.GetLatestAPOD, NasaService.FetchAndStoreAPOD]

/-- C1, amended: the repository-backed read paths — OSDR `get-list`, ISS
`get-trend`, `get-last-position` and `get-history` — perform zero Source
Client calls on every input (cache misses included); but the
`get-latest` APOD and NEO paths and the DONKI path each perform exactly
one upstream call when the cache holds no value. -/
theorem c1_read_paths_upstream_call_counts
    (page limit days hours : Int) (eventType : String) (now : ℝ)
    (cachedL : CacheJSON (List OsdrRepository.OSDRItem))
    (repoL : Except String (List OsdrRepository.OSDRItem))
    (cachedT : CacheJSON IssService.ISSTrend)
    (ps : Except String (List IssService.ISSLog))
    (cachedP : CacheGet) (cdoc : Option RawDoc)
    (repoLast : Except String IssService.ISSLog)
    (cachedH : CacheJSON (List IssService.ISSLog))
    (repoH : Except String (List IssService.ISSLog))
    (f fN : Except String RawDoc) (fD : Except String (List RawDoc))
    (rg rgN : CacheJSON RawDoc) (b b1 b2 b3 b4 : Bool) :
    (NasaService.GetOSDRList page limit cachedL repoL b).2 = 0 ∧
    (IssService.GetTrend cachedT ps limit).2 = 0 ∧
    (IssService.GetLastPosition now cachedP cdoc repoLast b1).2 = 0 ∧
    (IssService.GetPositionsHistory hours cachedH repoH b2).2 = 0 ∧
    (NasaService.GetLatestAPOD CacheJSON.miss f b3 rg).2 = 1 ∧
    (NasaService.GetLatestNEO days CacheJSON.miss fN b4 rgN).2 = 1 ∧
    (NasaService.GetDONKI eventType days CacheJSON.miss fD b).2 = 1 := by
  refine ⟨?_, ?_, ?_, ?_, ?_, ?_, ?_⟩
  · cases cachedL <;> cases repoL <;>
      simp [NasaService.GetOSDRList] <;> split <;> simp
  · cases cachedT with
    | miss => rfl
    | hit t => rfl
    | failure =>
      cases ps with
      | error e => rfl
      | ok l => by_cases h : l.length < 2 <;> simp [IssService.GetTrend, h]
  · cases cachedP <;> cases repoLast <;> cases cdoc <;>
      simp [IssService.GetLastPosition] <;> split <;> simp
  · cases cachedH <;> cases repoH <;>
      simp [IssService.GetPositionsHistory] <;> split <;> simp
  · cases f <;> cases b3 <;> cases rg <;>
      simp [NasaService.GetLatestAPOD, NasaService.FetchAndStoreAPOD]
  · cases fN <;> cases b4 <;> cases rgN <;>
      simp [NasaService.GetLatestNEO, NasaService.FetchAndStoreNEO]
  · cases fD <;> simp [NasaService.GetDONKI]

/-- C2, counterexample: the claim "if the fetch succeeds but the
subsequent persistence fails, the persistence failure is only logged and
the fetch lock is still set" is false — at a concrete invocation whose
`repo.Create` fails, `FetchAndStoreISSData` returns the error (it is not
merely logged) and the fetch lock is not set. -/
theorem c2_persist_failure_aborts_without_lock :
    (IssService.FetchAndStoreISSData CacheGet.miss (Except.ok [])
        (Except.error "db down") true true).lockSet = false ∧
    ∃ m, (IssService.FetchAndStoreISSData CacheGet.miss (Except.ok [])
        (Except.error "db down") true true).result = Except.error m :=
  ⟨rfl, _, rfl⟩

/-- C2, amended: a fetch failure aborts the invocation without setting
the fetch lock; a persistence failure *also* aborts with an error and
without setting the fetch lock; the lock is written only when fetch and
persistence both succeed (only failures of the cache writes themselves
are merely logged).  Shown for both lock-guarded domains, ISS and
OSDR. -/
theorem c2_lock_only_after_fetch_and_persist
    (e : String) (d : RawDoc) (items : List RawDoc)
    (c : Except String Unit) (sp sl : Bool) :
    ((IssService.FetchAndStoreISSData CacheGet.miss (Except.error e) c sp sl).lockSet = false ∧
      ∃ m, (IssService.FetchAndStoreISSData CacheGet.miss
        (Except.error e) c sp sl).result = Except.error m) ∧
    ((NasaService.FetchAndStoreOSDR CacheGet.miss (Except.error e) c sl).lockSet = false ∧
      ∃ m, (NasaService.FetchAndStoreOSDR CacheGet.miss
        (Except.error e) c sl).result = Except.error m) ∧
    ((IssService.FetchAndStoreISSData CacheGet.miss (Except.ok d) (Except.error e) sp sl).lockSet = false ∧
      ∃ m, (IssService.FetchAndStoreISSData CacheGet.miss
        (Except.ok d) (Except.error e) sp sl).result = Except.error m) ∧
    ((NasaService.FetchAndStoreOSDR CacheGet.miss (Except.ok (d :: items)) (Except.error e) sl).lockSet = false ∧
      ∃ m, (NasaService.FetchAndStoreOSDR CacheGet.miss
        (Except.ok (d :: items)) (Except.error e) sl).result = Except.error m) ∧
    (IssService.FetchAndStoreISSData CacheGet.miss (Except.ok d) (Except.ok ()) sp true).lockSet = true ∧
    (NasaService.FetchAndStoreOSDR CacheGet.miss (Except.ok (d :: items)) (Except.ok ()) true).lockSet = true := by
  refine ⟨⟨rfl, _, rfl⟩, ⟨rfl, _, rfl⟩, ⟨rfl, _, rfl⟩, ⟨?_, ?_⟩, rfl, ?_⟩ <;>
    simp [NasaService.FetchAndStoreOSDR]

/-- C3, counterexample: the claim "for every fetch domain, invoking that
domain's synchronization tick twice within the domain's minimum refetch
interval results in exactly one upstream fetch call" is false for the
APOD domain — its tick checks no fetch lock, so two ticks perform two
upstream calls. -/
theorem c3_apod_two_ticks_two_fetches :
    (NasaService.FetchAndStoreAPOD (Except.ok []) true).fetchCalls +
      (NasaService.FetchAndStoreAPOD (Except.ok []) true).fetchCalls ≠ 1 := by
  simp [NasaService.FetchAndStoreAPOD]

/-- C3, amended: for the lock-guarded domains (ISS, OSDR) a first
successful tick sets the lock and a second tick within the interval
performs zero upstream calls and persists nothing — one fetch, one
persisted batch in total; the APOD and NEO ticks check no lock and
perform one upstream call on *every* invocation. -/
theorem c3_lock_suppresses_second_tick
    (d : RawDoc) (items : List RawDoc)
    (f2 : Except String RawDoc) (fo2 : Except String (List RawDoc))
    (p2 c2 : Except String Unit) (sp1 sp2 sl2 b1 b2 : Bool) :
    (let o1 := IssService.FetchAndStoreISSData CacheGet.miss (Except.ok d) (Except.ok ()) sp1 true
     let o2 := IssService.FetchAndStoreISSData (lockGetAfter o1) f2 p2 sp2 sl2
     o1.fetchCalls + o2.fetchCalls = 1 ∧ o1.persisted = true ∧ o2.persisted = false) ∧
    (let o1 := NasaService.FetchAndStoreOSDR CacheGet.miss (Except.ok (d :: items)) (Except.ok ()) true
     let o2 := NasaService.FetchAndStoreOSDR (lockGetAfter o1) fo2 c2 sl2
     o1.fetchCalls + o2.fetchCalls = 1 ∧ o1.persisted = true ∧ o2.persisted = false) ∧
    (NasaService.FetchAndStoreAPOD f2 b1).fetchCalls = 1 ∧
    (NasaService.FetchAndStoreNEO f2 b2).fetchCalls = 1 := by
  refine ⟨?_, ?_, ?_, ?_⟩
  · simp [IssService.FetchAndStoreISSData, lockGetAfter]
  · simp [NasaService.FetchAndStoreOSDR, lockGetAfter]
  · cases f2 <;> cases b1 <;> simp [NasaService.FetchAndStoreAPOD]
  · cases f2 <;> cases b2 <;> simp [NasaService.FetchAndStoreNEO]

/-- C8, counterexample: the claim "force-sync … bypasses the fetch lock
check: even when the domain's fetch lock is present, invoking force-sync
performs an upstream fetch" is false — with the lock present the
`ForceFetchISS` endpoint performs zero upstream calls (and reports
success). -/
theorem c8_force_sync_respects_lock :
    (IssHandler.ForceFetchISS (CacheGet.hit "1") (Except.ok [])
        (Except.ok ()) true true).2.fetchCalls = 0 ∧
    (IssHandler.ForceFetchISS (CacheGet.hit "1") (Except.ok [])
        (Except.ok ()) true true).1 = 200 :=
  ⟨rfl, rfl⟩

/-- C8, amended: `force-sync` invokes the same synchronous
fetch-and-store path, which honors the fetch lock: with the lock present
it performs no upstream fetch and reports success (200); with the lock
absent it performs the fetch synchronously, propagating a fetch error to
its caller (500) and reporting success (200) when fetch and persist
succeed. -/
theorem c8_force_sync_behavior
    (d : RawDoc) (e : String) (f : Except String RawDoc)
    (c : Except String Unit) (sp sl : Bool) :
    ((IssHandler.ForceFetchISS (CacheGet.hit "1") f c sp sl).2.fetchCalls = 0 ∧
      (IssHandler.ForceFetchISS (CacheGet.hit "1") f c sp sl).1 = 200) ∧
    ((IssHandler.ForceFetchISS CacheGet.miss (Except.error e) c sp sl).1 = 500 ∧
      (IssHandler.ForceFetchISS CacheGet.miss (Except.error e) c sp sl).2.fetchCalls = 1) ∧
    ((IssHandler.ForceFetchISS CacheGet.miss (Except.ok d) (Except.ok ()) sp sl).1 = 200 ∧
      (IssHandler.ForceFetchISS CacheGet.miss (Except.ok d) (Except.ok ()) sp sl).2.fetchCalls = 1) := by
  refine ⟨⟨?_, ?_⟩, ⟨?_, ?_⟩, ?_, ?_⟩ <;>
    simp [IssHandler.ForceFetchISS, IssService.FetchAndStoreISSData]

/-- C9, counterexample: the claim "every later add-worker call … is
rejected: the worker collection is unchanged by a late add-worker" is
false — after `Stop`, `AddWorker` still appends to the collection. -/
theorem c9_late_addworker_appends :
    (WorkerScheduler.AddWorker
        (WorkerScheduler.Stop (WorkerScheduler.AddWorker WorkerScheduler.NewScheduler 1)).1 2).workers ≠
      (WorkerScheduler.Stop (WorkerScheduler.AddWorker WorkerScheduler.NewScheduler 1)).1.workers := by
  decide

/-- C9, amended: after `Stop` the scheduler is marked stopped
(`IsRunning` is false) and a late `Start` is rejected — it launches no
worker and leaves the scheduler unchanged; but `AddWorker` performs no
stopped-check, so a late `AddWorker` still appends the worker to the
collection (the appended worker is only never started). -/
theorem c9_stop_marks_and_rejects_start (s : WorkerScheduler.Scheduler) (w : Nat) :
    (WorkerScheduler.Stop s).1.stopped = true ∧
    WorkerScheduler.IsRunning (WorkerScheduler.Stop s).1 = false ∧
    WorkerScheduler.Start (WorkerScheduler.Stop s).1 = ((WorkerScheduler.Stop s).1, []) ∧
    (WorkerScheduler.AddWorker (WorkerScheduler.Stop s).1 w).workers =
      (WorkerScheduler.Stop s).1.workers ++ [w] := by
  refine ⟨rfl, rfl, ?_, rfl⟩
  simp [WorkerScheduler.Start, WorkerScheduler.Stop]

/-- C4, counterexample: the claim "the second call's mutable fields
(title, status, raw payload, updated-time) applied" is false for the
updated-time field — `UpdatedAt` is a gorm auto-update-time field, so
the `Save` of the second call stamps it with the save time (here 200),
discarding the incoming extracted value (here 99). -/
theorem c4_updated_time_not_applied :
    OsdrRepository.BulkUpsert
        ⟨[⟨7, "GLDS-1", "old title", "processing", some 10, [], 100⟩], 8, 200⟩
        [⟨0, "GLDS-1", "new title", "done", some 99, [], 0⟩] =
      Except.ok ⟨[⟨7, "GLDS-1", "new title", "done", some 200, [], 100⟩], 8, 200⟩ ∧
    (some 200 : Option Int) ≠ some 99 := by
  refine ⟨?_, by decide⟩
  simp [OsdrRepository.BulkUpsert, OsdrRepository.bulkUpsertStep, List.find?]

/-- C4, amended: upserting the same natural key twice — first into an
empty store, then again at a later time with different mutable fields —
leaves exactly one row under that key, carrying the id and `CreatedAt`
assigned by the first call and the title/status/raw of the second call;
the stored updated-time is not the second call's field value but the
auto-update stamp of the second call's save time. -/
theorem c4_upsert_same_key_twice
    (i1 i2 : OsdrRepository.OSDRItem) (n0 : Nat) (t0 t1 : Int)
    (hK : i1.datasetID ≠ "") (hsame : i2.datasetID = i1.datasetID) :
    OsdrRepository.BulkUpsert ⟨[], n0, t0⟩ [i1] =
      Except.ok ⟨[{ i1 with id := n0
                            createdAt := t0
                            updatedAt := OsdrRepository.stampCreate i1.updatedAt t0 }], n0 + 1, t0⟩ ∧
    OsdrRepository.BulkUpsert
        ⟨[{ i1 with id := n0
                    createdAt := t0
                    updatedAt := OsdrRepository.stampCreate i1.updatedAt t0 }], n0 + 1, t1⟩ [i2] =
      Except.ok ⟨[{ i2 with id := n0, createdAt := t0, updatedAt := some t1 }], n0 + 1, t1⟩ := by
  constructor
  · simp [OsdrRepository.BulkUpsert, OsdrRepository.bulkUpsertStep, hK]
  · simp [OsdrRepository.BulkUpsert, OsdrRepository.bulkUpsertStep, hK, hsame,
      List.find?]

/-- Witness for the amended C4 at a concrete key and concrete field
values. -/
theorem c4_upsert_same_key_twice_witness :
    OsdrRepository.BulkUpsert ⟨[], 7, 100⟩
        [⟨0, "GLDS-1", "old title", "processing", none, [], 0⟩] =
      Except.ok ⟨[⟨7, "GLDS-1", "old title", "processing", some 100, [], 100⟩], 8, 100⟩ ∧
    OsdrRepository.BulkUpsert ⟨[⟨7, "GLDS-1", "old title", "processing", some 100, [], 100⟩], 8, 200⟩
        [⟨0, "GLDS-1", "new title", "done", some 99, [], 0⟩] =
      Except.ok ⟨[⟨7, "GLDS-1", "new title", "done", some 200, [], 100⟩], 8, 200⟩ :=
  c4_upsert_same_key_twice
    ⟨0, "GLDS-1", "old title", "processing", none, [], 0⟩
    ⟨0, "GLDS-1", "new title", "done", some 99, [], 0⟩ 7 100 200 (by decide) rfl

/-- C7: a batch holding a malformed record (empty natural key) between
two valid records persists both valid records (each inserted with the
store-assigned id, creation time, and — for a nil incoming value — the
auto-filled update time), skips the malformed one, and the transaction
completes without error. -/
theorem c7_upsert_skips_empty_key
    (v1 m v2 : OsdrRepository.OSDRItem) (n0 : Nat) (t0 : Int)
    (h1 : v1.datasetID ≠ "") (hm : m.datasetID = "") (h2 : v2.datasetID ≠ "")
    (hne : v2.datasetID ≠ v1.datasetID) :
    OsdrRepository.BulkUpsert ⟨[], n0, t0⟩ [v1, m, v2] =
      Except.ok ⟨[{ v1 with id := n0
                            createdAt := t0
                            updatedAt := OsdrRepository.stampCreate v1.updatedAt t0 },
                  { v2 with id := n0 + 1
                            createdAt := t0
                            updatedAt := OsdrRepository.stampCreate v2.updatedAt t0 }], n0 + 2, t0⟩ := by
  simp [OsdrRepository.BulkUpsert, OsdrRepository.bulkUpsertStep, h1, hm, h2, hne,
    Ne.symm hne, List.find?]

/-- Witness for C7 at a concrete batch. -/
theorem c7_upsert_skips_empty_key_witness :
    OsdrRepository.BulkUpsert ⟨[], 3, 50⟩
        [⟨0, "GLDS-A", "a", "ok", none, [], 0⟩,
         ⟨0, "", "bad", "?", none, [], 0⟩,
         ⟨0, "GLDS-B", "b", "ok", none, [], 0⟩] =
      Except.ok ⟨[⟨3, "GLDS-A", "a", "ok", some 50, [], 50⟩,
                  ⟨4, "GLDS-B", "b", "ok", some 50, [], 50⟩], 5, 50⟩ :=
  c7_upsert_skips_empty_key
    ⟨0, "GLDS-A", "a", "ok", none, [], 0⟩
    ⟨0, "", "bad", "?", none, [], 0⟩
    ⟨0, "GLDS-B", "b", "ok", none, [], 0⟩ 3 50
    (by decide) rfl (by decide) (by decide)

/-- C5: the claim says `get-trend` on two samples one degree of latitude
apart returns `delta_km` within 1% of 111 km.  The code cannot do this:
`GetJSON` signals a cache *miss* with a nil error, leaving the
destination at its zero value, and `GetTrend` returns on any nil error —
so on a concrete pair of samples at (0°,0°) and (1°,0°) with an empty
cache it returns the zero trend (`delta_km = 0`, not ≈ 111) without ever
reading the repository, contradicting its own "Получаем последние
позиции из БД" fallback and the miss-guards every sibling read path
uses. -/
theorem c5_trend_cache_miss_skips_computation :
    (IssService.GetTrend CacheJSON.miss
        (Except.ok [⟨2, 60, "", some [("latitude", JVal.num 1), ("longitude", JVal.num 0)]⟩,
                    ⟨1, 0, "", some [("latitude", JVal.num 0), ("longitude", JVal.num 0)]⟩])
        240).1 = Except.ok IssService.trendZero ∧
    IssService.trendZero.deltaKm = 0 ∧
    ¬(|IssService.trendZero.deltaKm - 111| ≤ 111 / 100) := by
  refine ⟨rfl, rfl, ?_⟩
  rw [show IssService.trendZero.deltaKm = 0 from rfl]
  rw [abs_le]
  intro h
  linarith [h.1]

/-- C6: when the repository holds fewer than two positional samples,
`GetTrend` succeeds (never returns a failure), and — in every cache
state that can arise then, i.e. no trend value cached — it returns the
neutral zero trend: `movement = false`, `delta_km = 0`, all optional
fields absent. -/
theorem c6_trend_neutral_on_few_samples
    (c : CacheJSON IssService.ISSTrend) (ps : List IssService.ISSLog) (limit : Int)
    (hn : ps.length < 2) :
    (∃ t, (IssService.GetTrend c (Except.ok ps) limit).1 = Except.ok t) ∧
    (c = CacheJSON.miss ∨ c = CacheJSON.failure →
      (IssService.GetTrend c (Except.ok ps) limit).1 = Except.ok IssService.trendZero) := by
  cases c with
  | miss => exact ⟨⟨IssService.trendZero, rfl⟩, fun _ => rfl⟩
  | hit t => exact ⟨⟨t, rfl⟩, by simp⟩
  | failure =>
    refine ⟨⟨IssService.trendZero, ?_⟩, fun _ => ?_⟩ <;>
      simp [IssService.GetTrend, IssService.trendZero, hn]

/-- Witness for C6: an empty repository and a failed cache read yield
the neutral trend. -/
theorem c6_trend_neutral_on_few_samples_witness :
    (∃ t, (IssService.GetTrend CacheJSON.failure (Except.ok []) 240).1 = Except.ok t) ∧
    ((CacheJSON.failure : CacheJSON IssService.ISSTrend) = CacheJSON.miss ∨
        (CacheJSON.failure : CacheJSON IssService.ISSTrend) = CacheJSON.failure →
      (IssService.GetTrend CacheJSON.failure (Except.ok []) 240).1 =
        Except.ok IssService.trendZero) :=
  c6_trend_neutral_on_few_samples CacheJSON.failure [] 240 (by decide)

/-- `math.Atan2 y x` is non-negative whenever `y ≥ 0` (the result lies
in `[0, π]`). -/
lemma atan2_nonneg (y x : ℝ) (hy : 0 ≤ y) : 0 ≤ IssService.atan2 y x := by
  unfold IssService.atan2
  refine Complex.arg_nonneg_iff.mpr ?_
  simpa using hy

/-- `math.Atan2 0 1 = 0`. -/
lemma atan2_zero_one : IssService.atan2 0 1 = 0 := by
  unfold IssService.atan2
  norm_num [Complex.arg_one]

/-- The haversine distance of a point to itself is zero. -/
lemma haversineDistance_self (lat lon : ℝ) :
    IssService.haversineDistance lat lon lat lon = 0 := by
  simp [IssService.haversineDistance, sub_self, Real.sqrt_one, atan2_zero_one]

/-- The common outer shape of `haversineDistance`:
`R * (2 * atan2 √a √(1-a))` is non-negative for every real `a`. -/
lemma haversineShell_nonneg (a : ℝ) :
    0 ≤ 6371 * (2 * IssService.atan2 (Real.sqrt a) (Real.sqrt (1 - a))) := by
  have h := atan2_nonneg (Real.sqrt a) (Real.sqrt (1 - a)) (Real.sqrt_nonneg a)
  nlinarith

/-- The haversine distance is non-negative on all real inputs. -/
lemma haversineDistance_nonneg (lat1 lon1 lat2 lon2 : ℝ) :
    0 ≤ IssService.haversineDistance lat1 lon1 lat2 lon2 := by
  simp only [IssService.haversineDistance]
  exact haversineShell_nonneg _

/-- The haversine distance is symmetric in its two points. -/
lemma haversineDistance_symm (lat1 lon1 lat2 lon2 : ℝ) :
    IssService.haversineDistance lat1 lon1 lat2 lon2 =
      IssService.haversineDistance lat2 lon2 lat1 lon1 := by
  have key : ∀ A B : ℝ, A = B →
      6371 * (2 * IssService.atan2 (Real.sqrt A) (Real.sqrt (1 - A))) =
        6371 * (2 * IssService.atan2 (Real.sqrt B) (Real.sqrt (1 - B))) := by
    intro A B h; rw [h]
  simp only [IssService.haversineDistance]
  refine key _ _ ?_
  rw [show (lat1 - lat2) * Real.pi / 180 / 2 = -((lat2 - lat1) * Real.pi / 180 / 2) by ring,
    show (lon1 - lon2) * Real.pi / 180 / 2 = -((lon2 - lon1) * Real.pi / 180 / 2) by ring,
    Real.sin_neg, Real.sin_neg]
  ring

/-- C10: `haversineDistance` is symmetric, non-negative, and zero from a
point to itself, for all real coordinate inputs. -/
theorem c10_haversine_symm_nonneg_self (lat1 lon1 lat2 lon2 : ℝ) :
    IssService.haversineDistance lat1 lon1 lat2 lon2 =
      IssService.haversineDistance lat2 lon2 lat1 lon1 ∧
    0 ≤ IssService.haversineDistance lat1 lon1 lat2 lon2 ∧
    IssService.haversineDistance lat1 lon1 lat1 lon1 = 0 :=
  ⟨haversineDistance_symm lat1 lon1 lat2 lon2,
   haversineDistance_nonneg lat1 lon1 lat2 lon2,
   haversineDistance_self lat1 lon1⟩
